import Mathlib

/-!
Verification of the course-registration record-keeping core described in
`spec.md` of the `courseinfo` application.  The repository ships only
`courseinfo/tests.py` and a project `asgi.py`; the models, forms and views
exercised by those tests are modelled here from the specification (data
model §3, validation §4.1, deletion guard §4.2, listing §4.3, external
interfaces §6), staying consistent with the behaviour pinned down by the
tests.  Strings of free-text fields are `String`; the whitespace handling
of the validation layer is modelled on `List Char` so the trimming code is
fully transparent.
-/

namespace CourseInfo

/-- Modelled from the spec: entity `Year` — integer year value, unique. -/
structure Year where
  pk : Nat
  year : Int
deriving DecidableEq

/-- Modelled from the spec: entity `Period` — sequence number and name,
`(sequence, name)` pair keyed; sequence governs ordering. -/
structure Period where
  pk : Nat
  period_sequence : Nat
  period_name : String
deriving DecidableEq

/-- Modelled from the spec: entity `Semester` — references Year and Period
by primary key, `(year, period)` pair unique. -/
structure Semester where
  pk : Nat
  year : Nat
  period : Nat
deriving DecidableEq

/-- Modelled from the spec: entity `Course` — course number unique. -/
structure Course where
  pk : Nat
  course_number : String
  course_name : String
deriving DecidableEq

/-- Modelled from the spec: entity `Instructor` —
`(first, last, disambiguator)` unique. -/
structure Instructor where
  pk : Nat
  first_name : String
  last_name : String
  disambiguator : String
deriving DecidableEq

/-- Modelled from the spec: entity `Student` —
`(first, last, disambiguator)` unique. -/
structure Student where
  pk : Nat
  first_name : String
  last_name : String
  disambiguator : String
deriving DecidableEq

/-- Modelled from the spec: entity `Section` — name plus references to
Semester, Course, Instructor; the four-tuple is unique. -/
structure Section where
  pk : Nat
  section_name : String
  semester : Nat
  course : Nat
  instructor : Nat
deriving DecidableEq

/-- Modelled from the spec: entity `Registration` — references Student and
Section (`section_id`, as `section` is reserved in Lean); the pair is
unique. -/
structure Registration where
  pk : Nat
  student : Nat
  section_id : Nat
deriving DecidableEq

/-- Modelled from the spec: the stored entity graph — one table per entity
kind, with a primary-key counter for freshly created rows. -/
structure DB where
  years : List Year
  periods : List Period
  semesters : List Semester
  courses : List Course
  instructors : List Instructor
  students : List Student
  sections : List Section
  registrations : List Registration
  nextPk : Nat
deriving DecidableEq

/-- The empty entity graph. -/
def emptyDB : DB := ⟨[], [], [], [], [], [], [], [], 0⟩

/-- Modelled from the spec §7: error kinds surfaced by the storage
boundary — `ConstraintViolation` on a uniqueness breach, `NotFound` when
an identifier does not resolve. -/
inductive DbError where
  | constraintViolation
  | notFound
deriving DecidableEq

/-- Equality of storage-boundary results is decidable, so the concrete
sample computations below can be checked by evaluation. -/
instance {ε α : Type} [DecidableEq ε] [DecidableEq α] :
    DecidableEq (Except ε α)
  | .error a, .error b =>
      if h : a = b then .isTrue (by rw [h])
      else .isFalse (fun hc => h (Except.error.inj hc))
  | .error _, .ok _ => .isFalse (fun hc => Except.noConfusion hc)
  | .ok _, .error _ => .isFalse (fun hc => Except.noConfusion hc)
  | .ok a, .ok b =>
      if h : a = b then .isTrue (by rw [h])
      else .isFalse (fun hc => h (Except.ok.inj hc))

/-- Modelled from the spec §3: create a `Year`; the unique-year constraint
is enforced at the storage boundary, a duplicate fails with
`ConstraintViolation` and is never silently overwritten. -/
def createYear (db : DB) (y : Int) : Except DbError (DB × Nat) :=
  if ∃ r ∈ db.years, r.year = y then .error .constraintViolation
  else .ok ({ db with
      years := db.years ++ [⟨db.nextPk, y⟩]
      nextPk := db.nextPk + 1 }, db.nextPk)

/-- Modelled from the spec §3: create a `Period`; the `(sequence, name)`
pair is keyed at the storage boundary. -/
def createPeriod (db : DB) (seq : Nat) (name : String) :
    Except DbError (DB × Nat) :=
  if ∃ r ∈ db.periods, r.period_sequence = seq ∧ r.period_name = name then
    .error .constraintViolation
  else .ok ({ db with
      periods := db.periods ++ [⟨db.nextPk, seq, name⟩]
      nextPk := db.nextPk + 1 }, db.nextPk)

/-- Modelled from the spec §3: create a `Semester`; the `(year, period)`
pair is unique at the storage boundary. -/
def createSemester (db : DB) (y p : Nat) : Except DbError (DB × Nat) :=
  if ∃ r ∈ db.semesters, r.year = y ∧ r.period = p then
    .error .constraintViolation
  else .ok ({ db with
      semesters := db.semesters ++ [⟨db.nextPk, y, p⟩]
      nextPk := db.nextPk + 1 }, db.nextPk)

/-- Modelled from the spec §3: create a `Course`; the course number is
unique at the storage boundary. -/
def createCourse (db : DB) (num name : String) : Except DbError (DB × Nat) :=
  if ∃ r ∈ db.courses, r.course_number = num then .error .constraintViolation
  else .ok ({ db with
      courses := db.courses ++ [⟨db.nextPk, num, name⟩]
      nextPk := db.nextPk + 1 }, db.nextPk)

/-- Modelled from the spec §3: create an `Instructor`;
`(first, last, disambiguator)` is unique at the storage boundary. -/
def createInstructor (db : DB) (fn ln dis : String) :
    Except DbError (DB × Nat) :=
  if ∃ r ∈ db.instructors,
      r.first_name = fn ∧ r.last_name = ln ∧ r.disambiguator = dis then
    .error .constraintViolation
  else .ok ({ db with
      instructors := db.instructors ++ [⟨db.nextPk, fn, ln, dis⟩]
      nextPk := db.nextPk + 1 }, db.nextPk)

/-- Modelled from the spec §3: create a `Student`;
`(first, last, disambiguator)` is unique at the storage boundary. -/
def createStudent (db : DB) (fn ln dis : String) :
    Except DbError (DB × Nat) :=
  if ∃ r ∈ db.students,
      r.first_name = fn ∧ r.last_name = ln ∧ r.disambiguator = dis then
    .error .constraintViolation
  else .ok ({ db with
      students := db.students ++ [⟨db.nextPk, fn, ln, dis⟩]
      nextPk := db.nextPk + 1 }, db.nextPk)

/-- Modelled from the spec §3: create a `Section`;
`(name, semester, course, instructor)` is unique at the storage boundary. -/
def createSection (db : DB) (name : String) (sem c i : Nat) :
    Except DbError (DB × Nat) :=
  if ∃ r ∈ db.sections, r.section_name = name ∧ r.semester = sem ∧
      r.course = c ∧ r.instructor = i then
    .error .constraintViolation
  else .ok ({ db with
      sections := db.sections ++ [⟨db.nextPk, name, sem, c, i⟩]
      nextPk := db.nextPk + 1 }, db.nextPk)

/-- Modelled from the spec §3: create a `Registration`;
`(student, section)` is unique at the storage boundary. -/
def createRegistration (db : DB) (st sec : Nat) : Except DbError (DB × Nat) :=
  if ∃ r ∈ db.registrations, r.student = st ∧ r.section_id = sec then
    .error .constraintViolation
  else .ok ({ db with
      registrations := db.registrations ++ [⟨db.nextPk, st, sec⟩]
      nextPk := db.nextPk + 1 }, db.nextPk)

/-- Modelled from the spec §9: the closed set of tagged entity-kind
variants, selected by an explicit kind tag. -/
inductive EntityKind where
  | year | period | semester | course | instructor | student
  | section | registration
deriving DecidableEq

/-- Modelled from the spec §4.2/§7: one dependent record as reported by a
refused deletion — dependent entity kind, resolvable identifier and
display label. -/
structure Dependent where
  kind : String
  ident : Nat
  label : String
deriving DecidableEq

/-- Display label of a `Semester` dependent. -/
def semesterLabel (s : Semester) : String :=
  "semester " ++ toString s.pk

/-- Display label of a `Section` dependent. -/
def sectionLabel (s : Section) : String :=
  s.section_name

/-- Display label of a `Registration` dependent. -/
def registrationLabel (r : Registration) : String :=
  "registration " ++ toString r.pk

/-- A `Semester` rendered as a dependent record. -/
def semesterDep (s : Semester) : Dependent :=
  ⟨"Semester", s.pk, semesterLabel s⟩

/-- A `Section` rendered as a dependent record. -/
def sectionDep (s : Section) : Dependent :=
  ⟨"Section", s.pk, sectionLabel s⟩

/-- A `Registration` rendered as a dependent record. -/
def registrationDep (r : Registration) : Dependent :=
  ⟨"Registration", r.pk, registrationLabel r⟩

/-- Modelled from the spec §4.2/§9: the per-entity-kind dependent scan —
each entity kind maps to the dependent kinds that hold a reference to it
(per the relationship table of §3), and the scan collects every dependent
record. -/
def dependentsOf (db : DB) (kind : EntityKind) (id : Nat) : List Dependent :=
  match kind with
  | .year => (db.semesters.filter (fun r => r.year == id)).map semesterDep
  | .period => (db.semesters.filter (fun r => r.period == id)).map semesterDep
  | .semester => (db.sections.filter (fun r => r.semester == id)).map sectionDep
  | .course => (db.sections.filter (fun r => r.course == id)).map sectionDep
  | .instructor =>
      (db.sections.filter (fun r => r.instructor == id)).map sectionDep
  | .student =>
      (db.registrations.filter (fun r => r.student == id)).map registrationDep
  | .section =>
      (db.registrations.filter (fun r => r.section_id == id)).map
        registrationDep
  | .registration => []

/-- Result of the deletion guard: either the delete may proceed, or it is
refused with the list of dependent records. -/
inductive DeleteCheck where
  | allowed
  | refused (dependents : List Dependent)
deriving DecidableEq

/-- Modelled from the spec §4.2: `check_deletable(entity_kind, id)` —
"allowed" when zero dependents exist, otherwise "refused" carrying the
list of dependent records. -/
def check_deletable (db : DB) (kind : EntityKind) (id : Nat) : DeleteCheck :=
  match dependentsOf db kind id with
  | [] => .allowed
  | d :: ds => .refused (d :: ds)

/-- Remove the record with the given primary key from the given table. -/
def removeEntity (db : DB) (kind : EntityKind) (id : Nat) : DB :=
  match kind with
  | .year => { db with years := db.years.filter (fun r => r.pk != id) }
  | .period => { db with periods := db.periods.filter (fun r => r.pk != id) }
  | .semester =>
      { db with semesters := db.semesters.filter (fun r => r.pk != id) }
  | .course => { db with courses := db.courses.filter (fun r => r.pk != id) }
  | .instructor =>
      { db with instructors := db.instructors.filter (fun r => r.pk != id) }
  | .student => { db with students := db.students.filter (fun r => r.pk != id) }
  | .section => { db with sections := db.sections.filter (fun r => r.pk != id) }
  | .registration =>
      { db with registrations := db.registrations.filter (fun r => r.pk != id) }

/-- The operations of the constrained-mutation model that touch the
deletion guard. -/
inductive Op where
  | checkDeletable (kind : EntityKind) (id : Nat)
  | deleteEntity (kind : EntityKind) (id : Nat)

/-- Outcome of an `Op`. -/
inductive OpResult where
  | checkOk (c : DeleteCheck)
  | deleted
  | deletionRefused (dependents : List Dependent)
deriving DecidableEq

/-- Modelled from the spec §4.2: operations against the stored entity
graph.  `checkDeletable` is the read-only guard; `deleteEntity` is the
delete-handling collaborator that calls the guard first and performs the
storage-level deletion only on an "allowed" result — on "refused" the
graph is left untouched and the dependents are reported. -/
def applyOp (db : DB) : Op → DB × OpResult
  | .checkDeletable kind id => (db, .checkOk (check_deletable db kind id))
  | .deleteEntity kind id =>
      match check_deletable db kind id with
      | .allowed => (removeEntity db kind id, .deleted)
      | .refused deps => (db, .deletionRefused deps)

/-- Store holding one Year. -/
def dbYear : DB := ⟨[⟨0, 2023⟩], [], [], [], [], [], [], [], 1⟩

/-- Store holding one Year and one Period. -/
def dbPeriod : DB := ⟨[⟨0, 2023⟩], [⟨1, 1, "Spring"⟩], [], [], [], [], [], [], 2⟩

/-- Store additionally holding one Semester. -/
def dbSemester : DB :=
  ⟨[⟨0, 2023⟩], [⟨1, 1, "Spring"⟩], [⟨2, 0, 1⟩], [], [], [], [], [], 3⟩

/-- Store additionally holding one Course. -/
def dbCourse : DB :=
  ⟨[⟨0, 2023⟩], [⟨1, 1, "Spring"⟩], [⟨2, 0, 1⟩],
    [⟨3, "CS101", "Introduction to Computer Science"⟩], [], [], [], [], 4⟩

/-- Store additionally holding one Instructor. -/
def dbInstructor : DB :=
  ⟨[⟨0, 2023⟩], [⟨1, 1, "Spring"⟩], [⟨2, 0, 1⟩],
    [⟨3, "CS101", "Introduction to Computer Science"⟩],
    [⟨4, "John", "Doe", ""⟩], [], [], [], 5⟩

/-- Store additionally holding one Student. -/
def dbStudent : DB :=
  ⟨[⟨0, 2023⟩], [⟨1, 1, "Spring"⟩], [⟨2, 0, 1⟩],
    [⟨3, "CS101", "Introduction to Computer Science"⟩],
    [⟨4, "John", "Doe", ""⟩], [⟨5, "Jane", "Smith", ""⟩], [], [], 6⟩

/-- Store additionally holding one Section taught by the Instructor. -/
def dbSection : DB :=
  ⟨[⟨0, 2023⟩], [⟨1, 1, "Spring"⟩], [⟨2, 0, 1⟩],
    [⟨3, "CS101", "Introduction to Computer Science"⟩],
    [⟨4, "John", "Doe", ""⟩], [⟨5, "Jane", "Smith", ""⟩],
    [⟨6, "Section A", 2, 3, 4⟩], [], 7⟩

/-- Fully populated sample store: one row of every entity kind, with the
Section referencing the Semester, Course and Instructor, and the
Registration referencing the Student and Section. -/
def dbSample : DB :=
  ⟨[⟨0, 2023⟩], [⟨1, 1, "Spring"⟩], [⟨2, 0, 1⟩],
    [⟨3, "CS101", "Introduction to Computer Science"⟩],
    [⟨4, "John", "Doe", ""⟩], [⟨5, "Jane", "Smith", ""⟩],
    [⟨6, "Section A", 2, 3, 4⟩], [⟨7, 5, 6⟩], 8⟩

/-- Store with Years created in the order 2023, 2021, 2022. -/
def dbYearsA : DB :=
  ⟨[⟨0, 2023⟩, ⟨1, 2021⟩, ⟨2, 2022⟩], [], [], [], [], [], [], [], 3⟩

/-- Store with the same Years created in ascending order. -/
def dbYearsB : DB :=
  ⟨[⟨1, 2021⟩, ⟨2, 2022⟩, ⟨0, 2023⟩], [], [], [], [], [], [], [], 3⟩

/-- Store with Periods created as Winter 4, Spring 1, Summer 2, Fall 3. -/
def dbPeriodsA : DB :=
  ⟨[], [⟨0, 4, "Winter"⟩, ⟨1, 1, "Spring"⟩, ⟨2, 2, "Summer"⟩,
      ⟨3, 3, "Fall"⟩], [], [], [], [], [], [], 4⟩

/-- Store with the same sequence numbers under different names created in
another order. -/
def dbPeriodsB : DB :=
  ⟨[], [⟨0, 2, "B"⟩, ⟨1, 4, "D"⟩, ⟨2, 1, "A"⟩, ⟨3, 3, "C"⟩],
    [], [], [], [], [], [], 4⟩

/-- Ordering relation of the Year listing: ascending by year value. -/
def yearLe (a b : Year) : Prop := a.year ≤ b.year

instance : DecidableRel yearLe :=
  fun a b => inferInstanceAs (Decidable (a.year ≤ b.year))

instance : IsTotal Year yearLe := ⟨fun a b => Int.le_total a.year b.year⟩

instance : IsTrans Year yearLe := ⟨fun _ _ _ h1 h2 => le_trans h1 h2⟩

/-- Modelled from the spec §4.3: the Year list operation returns the
stored Year records ordered ascending by year value. -/
def listYears (db : DB) : List Year :=
  List.insertionSort yearLe db.years

/-- Ordering relation of the Period listing: ascending by sequence
number. -/
def periodLe (a b : Period) : Prop := a.period_sequence ≤ b.period_sequence

instance : DecidableRel periodLe :=
  fun a b => inferInstanceAs (Decidable (a.period_sequence ≤ b.period_sequence))

instance : IsTotal Period periodLe :=
  ⟨fun a b => Nat.le_total a.period_sequence b.period_sequence⟩

instance : IsTrans Period periodLe := ⟨fun _ _ _ h1 h2 => le_trans h1 h2⟩

/-- Modelled from the spec §4.3: the Period list operation returns the
stored Period records ordered ascending by sequence number. -/
def listPeriods (db : DB) : List Period :=
  List.insertionSort periodLe db.periods

/-- Whitespace test used by the validation layer's trimming. -/
def isSpc (c : Char) : Bool := c.isWhitespace

/-- Modelled from the spec §4.1: trim leading and trailing whitespace
from a free-text field; no other normalization is applied. -/
def strip (l : List Char) : List Char :=
  List.rdropWhile isSpc (List.dropWhile isSpc l)

/-- Raw input of the Instructor form: three free-text fields. -/
structure InstructorFormData where
  first_name : List Char
  last_name : List Char
  disambiguator : List Char
deriving DecidableEq

/-- Raw input of the Student form: three free-text fields. -/
structure StudentFormData where
  first_name : List Char
  last_name : List Char
  disambiguator : List Char
deriving DecidableEq

/-- Raw input of the Course form: two free-text fields. -/
structure CourseFormData where
  course_number : List Char
  course_name : List Char
deriving DecidableEq

/-- Raw input of the Section form: its free-text field. -/
structure SectionFormData where
  section_name : List Char
deriving DecidableEq

/-- Modelled from the spec §4.1: normalization of the Instructor form —
every free-text field is trimmed. -/
def cleanInstructorForm (f : InstructorFormData) : InstructorFormData :=
  ⟨strip f.first_name, strip f.last_name, strip f.disambiguator⟩

/-- Modelled from the spec §4.1: normalization of the Student form. -/
def cleanStudentForm (f : StudentFormData) : StudentFormData :=
  ⟨strip f.first_name, strip f.last_name, strip f.disambiguator⟩

/-- Modelled from the spec §4.1: normalization of the Course form. -/
def cleanCourseForm (f : CourseFormData) : CourseFormData :=
  ⟨strip f.course_number, strip f.course_name⟩

/-- Modelled from the spec §4.1: normalization of the Section form. -/
def cleanSectionForm (f : SectionFormData) : SectionFormData :=
  ⟨strip f.section_name⟩

/-- Display label of a `Year` record. -/
def yearLabel (r : Year) : String := toString r.year

/-- Display label of a `Period` record. -/
def periodLabel (p : Period) : String := p.period_name

/-- Display label of a `Course` record. -/
def courseLabel (c : Course) : String :=
  c.course_number ++ " - " ++ c.course_name

/-- Display label of an `Instructor` record. -/
def instructorLabel (i : Instructor) : String :=
  i.last_name ++ ", " ++ i.first_name

/-- Display label of a `Student` record. -/
def studentLabel (s : Student) : String :=
  s.last_name ++ ", " ++ s.first_name

/-- Look up the record of the given kind by primary key, rendered with
its identifier and display label. -/
def findRecord (db : DB) (kind : EntityKind) (pk : Nat) : Option Dependent :=
  match kind with
  | .year => (db.years.find? (fun r => r.pk == pk)).map
      (fun r => ⟨"Year", r.pk, yearLabel r⟩)
  | .period => (db.periods.find? (fun r => r.pk == pk)).map
      (fun r => ⟨"Period", r.pk, periodLabel r⟩)
  | .semester => (db.semesters.find? (fun r => r.pk == pk)).map semesterDep
  | .course => (db.courses.find? (fun r => r.pk == pk)).map
      (fun r => ⟨"Course", r.pk, courseLabel r⟩)
  | .instructor => (db.instructors.find? (fun r => r.pk == pk)).map
      (fun r => ⟨"Instructor", r.pk, instructorLabel r⟩)
  | .student => (db.students.find? (fun r => r.pk == pk)).map
      (fun r => ⟨"Student", r.pk, studentLabel r⟩)
  | .section => (db.sections.find? (fun r => r.pk == pk)).map sectionDep
  | .registration =>
      (db.registrations.find? (fun r => r.pk == pk)).map registrationDep

/-- Modelled from the spec §6: the detail-by-identifier operation — fails
with `NotFound` when the identifier does not resolve to an existing
record of the requested kind. -/
def detail_entity (db : DB) (kind : EntityKind) (pk : Nat) :
    Except DbError Dependent :=
  match findRecord db kind pk with
  | some d => .ok d
  | none => .error .notFound

/-- Modelled from the spec §9: explicit context carrying the caller's
authenticated identity and granted permission set. -/
structure ActorContext where
  authenticated : Bool
  perms : List String
deriving DecidableEq

/-- Modelled from the spec §6 and the behaviour pinned by the tests: the
public list interface answers an unauthenticated caller with a redirect
to login (302), an authenticated caller lacking the entity's view
permission with 403, and an authenticated caller holding it with the 200
listing. -/
def list_view_status (ctx : ActorContext) (requiredPerm : String) : Nat :=
  if ctx.authenticated = false then 302
  else if requiredPerm ∈ ctx.perms then 200
  else 403

/-- `C2`: an Instructor with zero associated Sections checks as
"allowed"; an Instructor with at least one associated Section checks as
"refused" with the dependent list containing that Section. -/
theorem check_deletable_instructor :
    ∀ (db : DB) (i : Nat),
      (db.sections.filter (fun s => s.instructor == i) = [] →
        check_deletable db .instructor i = .allowed)
      ∧ (∀ s, s ∈ db.sections → s.instructor = i →
          ∃ deps, check_deletable db .instructor i = .refused deps ∧
            sectionDep s ∈ deps) := by
  intro db i
  constructor
  · intro hnil
    simp [check_deletable, dependentsOf, hnil]
  · intro s hs hsi
    have hmem : s ∈ db.sections.filter (fun x => x.instructor == i) := by
      simp [List.mem_filter, hs, hsi]
    cases hcase : db.sections.filter (fun x => x.instructor == i) with
    | nil => rw [hcase] at hmem; cases hmem
    | cons d ds =>
        refine ⟨(d :: ds).map sectionDep, ?_, ?_⟩
        · simp [check_deletable, dependentsOf, hcase]
        · exact List.mem_map_of_mem sectionDep (hcase ▸ hmem)

/-- `C2` witness: a store with one Instructor tied to one Section refuses
its deletion listing that Section, and an Instructor with no Sections is
deletable. -/
theorem check_deletable_instructor_witness :
    (∃ deps, check_deletable dbSample .instructor 4 = .refused deps ∧
      sectionDep ⟨6, "Section A", 2, 3, 4⟩ ∈ deps)
    ∧ check_deletable dbSample .instructor 99 = .allowed :=
  ⟨(check_deletable_instructor dbSample 4).2 ⟨6, "Section A", 2, 3, 4⟩
      (by decide) rfl,
    (check_deletable_instructor dbSample 99).1 (by decide)⟩

/-- `C3`: deleting a Section with at least one associated Registration is
refused, the refusal lists every dependent Registration with its display
label and resolvable identifier, and the stored entity graph is unchanged
by the refused delete. -/
theorem section_delete_refused :
    ∀ (db : DB) (id : Nat),
      db.registrations.filter (fun r => r.section_id == id) ≠ [] →
        applyOp db (.deleteEntity .section id) =
          (db, .deletionRefused
            ((db.registrations.filter (fun r => r.section_id == id)).map
              registrationDep))
        ∧ ∀ r, r ∈ db.registrations → r.section_id = id →
            (⟨"Registration", r.pk, registrationLabel r⟩ : Dependent) ∈
              (db.registrations.filter (fun rr => rr.section_id == id)).map
                registrationDep := by
  intro db id hne
  constructor
  · cases hcase : db.registrations.filter (fun r => r.section_id == id) with
    | nil => exact absurd hcase hne
    | cons d ds =>
        simp [applyOp, check_deletable, dependentsOf, hcase]
  · intro r hr hrid
    have hmem : r ∈ db.registrations.filter (fun rr => rr.section_id == id) := by
      simp [List.mem_filter, hr, hrid]
    exact List.mem_map_of_mem registrationDep hmem

/-- `C3` witness: the sample store's Section has one Registration, so the
delete is refused, the Registration is listed with label and identifier,
and the store is unchanged. -/
theorem section_delete_refused_witness :
    (applyOp dbSample (.deleteEntity .section 6) =
      (dbSample, .deletionRefused
        ((dbSample.registrations.filter (fun r => r.section_id == 6)).map
          registrationDep)))
    ∧ (⟨"Registration", 7, registrationLabel ⟨7, 5, 6⟩⟩ : Dependent) ∈
        (dbSample.registrations.filter (fun rr => rr.section_id == 6)).map
          registrationDep :=
  ⟨(section_delete_refused dbSample 6 (by decide)).1,
    (section_delete_refused dbSample 6 (by decide)).2 ⟨7, 5, 6⟩
      (by decide) rfl⟩

/-- `C4`: the deletion guard is read-only — running `checkDeletable` on
any entity kind and identifier leaves the stored entity graph unchanged,
whatever the result. -/
theorem check_deletable_readonly :
    ∀ (db : DB) (kind : EntityKind) (id : Nat),
      (applyOp db (.checkDeletable kind id)).1 = db :=
  fun _ _ _ => rfl

/-- `C1`: for every entity kind with a declared uniqueness invariant
(Year, Period, Semester, Course, Instructor, Student, Section,
Registration), when a create succeeds, creating a second instance with
identical invariant-defining fields against the resulting store fails
with `ConstraintViolation` at the storage boundary rather than silently
overwriting. -/
theorem create_duplicate_constraintViolation :
    (∀ db y db2 pk, createYear db y = .ok (db2, pk) →
      createYear db2 y = .error .constraintViolation)
    ∧ (∀ db s n db2 pk, createPeriod db s n = .ok (db2, pk) →
      createPeriod db2 s n = .error .constraintViolation)
    ∧ (∀ db y p db2 pk, createSemester db y p = .ok (db2, pk) →
      createSemester db2 y p = .error .constraintViolation)
    ∧ (∀ db num name db2 pk, createCourse db num name = .ok (db2, pk) →
      createCourse db2 num name = .error .constraintViolation)
    ∧ (∀ db fn ln d db2 pk, createInstructor db fn ln d = .ok (db2, pk) →
      createInstructor db2 fn ln d = .error .constraintViolation)
    ∧ (∀ db fn ln d db2 pk, createStudent db fn ln d = .ok (db2, pk) →
      createStudent db2 fn ln d = .error .constraintViolation)
    ∧ (∀ db n sem c i db2 pk, createSection db n sem c i = .ok (db2, pk) →
      createSection db2 n sem c i = .error .constraintViolation)
    ∧ (∀ db st sec db2 pk, createRegistration db st sec = .ok (db2, pk) →
      createRegistration db2 st sec = .error .constraintViolation) := by
  refine ⟨?_, ?_, ?_, ?_, ?_, ?_, ?_, ?_⟩
  · intro db y db2 pk h
    unfold createYear at h ⊢
    split at h
    · exact Except.noConfusion h
    · rw [Except.ok.injEq, Prod.mk.injEq] at h
      obtain ⟨rfl, -⟩ := h
      rw [if_pos ⟨⟨db.nextPk, y⟩, by simp, rfl⟩]
  · intro db s n db2 pk h
    unfold createPeriod at h ⊢
    split at h
    · exact Except.noConfusion h
    · rw [Except.ok.injEq, Prod.mk.injEq] at h
      obtain ⟨rfl, -⟩ := h
      rw [if_pos ⟨⟨db.nextPk, s, n⟩, by simp, rfl, rfl⟩]
  · intro db y p db2 pk h
    unfold createSemester at h ⊢
    split at h
    · exact Except.noConfusion h
    · rw [Except.ok.injEq, Prod.mk.injEq] at h
      obtain ⟨rfl, -⟩ := h
      rw [if_pos ⟨⟨db.nextPk, y, p⟩, by simp, rfl, rfl⟩]
  · intro db num name db2 pk h
    unfold createCourse at h ⊢
    split at h
    · exact Except.noConfusion h
    · rw [Except.ok.injEq, Prod.mk.injEq] at h
      obtain ⟨rfl, -⟩ := h
      rw [if_pos ⟨⟨db.nextPk, num, name⟩, by simp, rfl⟩]
  · intro db fn ln d db2 pk h
    unfold createInstructor at h ⊢
    split at h
    · exact Except.noConfusion h
    · rw [Except.ok.injEq, Prod.mk.injEq] at h
      obtain ⟨rfl, -⟩ := h
      rw [if_pos ⟨⟨db.nextPk, fn, ln, d⟩, by simp, rfl, rfl, rfl⟩]
  · intro db fn ln d db2 pk h
    unfold createStudent at h ⊢
    split at h
    · exact Except.noConfusion h
    · rw [Except.ok.injEq, Prod.mk.injEq] at h
      obtain ⟨rfl, -⟩ := h
      rw [if_pos ⟨⟨db.nextPk, fn, ln, d⟩, by simp, rfl, rfl, rfl⟩]
  · intro db n sem c i db2 pk h
    unfold createSection at h ⊢
    split at h
    · exact Except.noConfusion h
    · rw [Except.ok.injEq, Prod.mk.injEq] at h
      obtain ⟨rfl, -⟩ := h
      rw [if_pos ⟨⟨db.nextPk, n, sem, c, i⟩, by simp, rfl, rfl, rfl, rfl⟩]
  · intro db st sec db2 pk h
    unfold createRegistration at h ⊢
    split at h
    · exact Except.noConfusion h
    · rw [Except.ok.injEq, Prod.mk.injEq] at h
      obtain ⟨rfl, -⟩ := h
      rw [if_pos ⟨⟨db.nextPk, st, sec⟩, by simp, rfl, rfl⟩]

/-- `C5`: the Year listing is sorted ascending by year value, is a
permutation of the stored Year records, and its sequence of year values
is independent of the order in which the records were created. -/
theorem year_listing_sorted :
    ∀ db : DB,
      List.Sorted yearLe (listYears db)
      ∧ (listYears db).Perm db.years
      ∧ ∀ db2 : DB, db.years.Perm db2.years →
          (listYears db).map Year.year = (listYears db2).map Year.year := by
  intro db
  refine ⟨List.sorted_insertionSort yearLe db.years,
    List.perm_insertionSort yearLe db.years, ?_⟩
  intro db2 hperm
  have hs1 : ((listYears db).map Year.year).Sorted (· ≤ ·) :=
    List.pairwise_map.mpr (List.sorted_insertionSort yearLe db.years)
  have hs2 : ((listYears db2).map Year.year).Sorted (· ≤ ·) :=
    List.pairwise_map.mpr (List.sorted_insertionSort yearLe db2.years)
  have hp : ((listYears db).map Year.year).Perm
      ((listYears db2).map Year.year) :=
    ((List.perm_insertionSort yearLe db.years).map Year.year).trans
      ((hperm.map Year.year).trans
        ((List.perm_insertionSort yearLe db2.years).map Year.year).symm)
  exact List.eq_of_perm_of_sorted hp hs1 hs2

/-- `C5` witness: three Years created in the order 2023, 2021, 2022 list
as 2021, 2022, 2023, and a store with the same Years created in another
order lists the same values. -/
theorem year_listing_sorted_witness :
    List.Sorted yearLe (listYears dbYearsA)
    ∧ (listYears dbYearsA).Perm dbYearsA.years
    ∧ (listYears dbYearsA).map Year.year =
        (listYears dbYearsB).map Year.year :=
  ⟨(year_listing_sorted dbYearsA).1, (year_listing_sorted dbYearsA).2.1,
    (year_listing_sorted dbYearsA).2.2 dbYearsB (by decide)⟩

/-- `C6`: the Period listing is sorted ascending by sequence number, is a
permutation of the stored Period records, and its sequence-number
projection depends only on the multiset of stored sequence numbers —
independent of period names and of insertion order. -/
theorem period_listing_sorted :
    ∀ db : DB,
      List.Sorted periodLe (listPeriods db)
      ∧ (listPeriods db).Perm db.periods
      ∧ ∀ db2 : DB,
          (db.periods.map Period.period_sequence).Perm
            (db2.periods.map Period.period_sequence) →
          (listPeriods db).map Period.period_sequence =
            (listPeriods db2).map Period.period_sequence := by
  intro db
  refine ⟨List.sorted_insertionSort periodLe db.periods,
    List.perm_insertionSort periodLe db.periods, ?_⟩
  intro db2 hperm
  have hs1 : ((listPeriods db).map Period.period_sequence).Sorted (· ≤ ·) :=
    List.pairwise_map.mpr (List.sorted_insertionSort periodLe db.periods)
  have hs2 : ((listPeriods db2).map Period.period_sequence).Sorted (· ≤ ·) :=
    List.pairwise_map.mpr (List.sorted_insertionSort periodLe db2.periods)
  have hp : ((listPeriods db).map Period.period_sequence).Perm
      ((listPeriods db2).map Period.period_sequence) :=
    ((List.perm_insertionSort periodLe db.periods).map
        Period.period_sequence).trans
      (hperm.trans
        ((List.perm_insertionSort periodLe db2.periods).map
          Period.period_sequence).symm)
  exact List.eq_of_perm_of_sorted hp hs1 hs2

/-- `C6` witness: four Periods created as Winter 4, Spring 1, Summer 2,
Fall 3 list in sequence order 1, 2, 3, 4, and a store with the same
sequence numbers under other names and another order lists the same
sequence values. -/
theorem period_listing_sorted_witness :
    List.Sorted periodLe (listPeriods dbPeriodsA)
    ∧ (listPeriods dbPeriodsA).Perm dbPeriodsA.periods
    ∧ (listPeriods dbPeriodsA).map Period.period_sequence =
        (listPeriods dbPeriodsB).map Period.period_sequence :=
  ⟨(period_listing_sorted dbPeriodsA).1,
    (period_listing_sorted dbPeriodsA).2.1,
    (period_listing_sorted dbPeriodsA).2.2 dbPeriodsB (by decide)⟩

/-- `C1` witness: creating one row of each entity kind in turn succeeds,
and re-creating each with identical invariant-defining fields fails with
`ConstraintViolation`. -/
theorem create_duplicate_constraintViolation_witness :
    createYear dbYear 2023 = .error .constraintViolation
    ∧ createPeriod dbPeriod 1 "Spring" = .error .constraintViolation
    ∧ createSemester dbSemester 0 1 = .error .constraintViolation
    ∧ createCourse dbCourse "CS101" "Introduction to Computer Science" =
        .error .constraintViolation
    ∧ createInstructor dbInstructor "John" "Doe" "" =
        .error .constraintViolation
    ∧ createStudent dbStudent "Jane" "Smith" "" = .error .constraintViolation
    ∧ createSection dbSection "Section A" 2 3 4 = .error .constraintViolation
    ∧ createRegistration dbSample 5 6 = .error .constraintViolation :=
  ⟨create_duplicate_constraintViolation.1 emptyDB 2023 dbYear 0 (by decide),
    create_duplicate_constraintViolation.2.1 dbYear 1 "Spring" dbPeriod 1
      (by decide),
    create_duplicate_constraintViolation.2.2.1 dbPeriod 0 1 dbSemester 2
      (by decide),
    create_duplicate_constraintViolation.2.2.2.1 dbSemester "CS101"
      "Introduction to Computer Science" dbCourse 3 (by decide),
    create_duplicate_constraintViolation.2.2.2.2.1 dbCourse "John" "Doe" ""
      dbInstructor 4 (by decide),
    create_duplicate_constraintViolation.2.2.2.2.2.1 dbInstructor "Jane"
      "Smith" "" dbStudent 5 (by decide),
    create_duplicate_constraintViolation.2.2.2.2.2.2.1 dbStudent "Section A"
      2 3 4 dbSection 6 (by decide),
    create_duplicate_constraintViolation.2.2.2.2.2.2.2 dbSection 5 6 dbSample
      7 (by decide)⟩

/-- Auxiliary: a list whose leading whitespace is already gone keeps that
property after its trailing whitespace is removed. -/
theorem dropWhile_rdropWhile_of_dropWhile_eq (p : Char → Bool) :
    ∀ x : List Char, List.dropWhile p x = x →
      List.dropWhile p (List.rdropWhile p x) = List.rdropWhile p x := by
  intro x hx
  cases h : List.rdropWhile p x with
  | nil => simp
  | cons a ys =>
      obtain ⟨t, ht⟩ := h ▸ List.rdropWhile_prefix p x
      have hna : p a = false := by
        cases hb : p a with
        | false => rfl
        | true =>
            exfalso
            have hstep : List.dropWhile p x = List.dropWhile p (ys ++ t) := by
              rw [← ht, List.cons_append, List.dropWhile_cons]
              simp [hb]
            have hlen : x.length ≤ (ys ++ t).length := by
              conv_lhs => rw [← hx, hstep]
              exact (List.dropWhile_sublist p).length_le
            rw [← ht] at hlen
            simp [List.length_append] at hlen
      simp [List.dropWhile_cons, hna]

/-- Auxiliary: trimming splits any character list into an all-whitespace
prefix, the trimmed core kept verbatim, and an all-whitespace suffix. -/
theorem strip_decomposition :
    ∀ l : List Char, ∃ pre suf,
      (∀ c ∈ pre, isSpc c = true) ∧ (∀ c ∈ suf, isSpc c = true) ∧
        l = pre ++ strip l ++ suf := by
  intro l
  refine ⟨l.takeWhile isSpc,
    ((l.dropWhile isSpc).reverse.takeWhile isSpc).reverse, ?_, ?_, ?_⟩
  · intro c hc
    exact List.mem_takeWhile_imp hc
  · intro c hc
    exact List.mem_takeWhile_imp (List.mem_reverse.mp hc)
  · conv_lhs => rw [← List.takeWhile_append_dropWhile isSpc l]
    rw [List.append_assoc]
    congr 1
    show l.dropWhile isSpc = strip l ++ _
    unfold strip List.rdropWhile
    conv_lhs => rw [← List.reverse_reverse (l.dropWhile isSpc),
      ← List.takeWhile_append_dropWhile isSpc (l.dropWhile isSpc).reverse]
    rw [List.reverse_append]

/-- `C7`: the validation layer stores each free-text field trimmed of
leading and trailing whitespace and applies no other normalization — the
stored value is a verbatim contiguous segment of the input (interior
whitespace and letter case preserved exactly), the removed margins are
all whitespace, and the result carries no leading or trailing
whitespace; each form field is normalized exactly this way. -/
theorem normalize_trims_whitespace_only :
    (∀ l : List Char,
      (∃ pre suf, (∀ c ∈ pre, isSpc c = true) ∧ (∀ c ∈ suf, isSpc c = true) ∧
        l = pre ++ strip l ++ suf)
      ∧ List.dropWhile isSpc (strip l) = strip l
      ∧ List.rdropWhile isSpc (strip l) = strip l)
    ∧ (∀ f : InstructorFormData, cleanInstructorForm f =
        ⟨strip f.first_name, strip f.last_name, strip f.disambiguator⟩)
    ∧ (∀ f : StudentFormData, cleanStudentForm f =
        ⟨strip f.first_name, strip f.last_name, strip f.disambiguator⟩)
    ∧ (∀ f : CourseFormData, cleanCourseForm f =
        ⟨strip f.course_number, strip f.course_name⟩)
    ∧ (∀ f : SectionFormData, cleanSectionForm f = ⟨strip f.section_name⟩) := by
  refine ⟨?_, fun f => rfl, fun f => rfl, fun f => rfl, fun f => rfl⟩
  intro l
  refine ⟨strip_decomposition l, ?_, ?_⟩
  · exact dropWhile_rdropWhile_of_dropWhile_eq isSpc (List.dropWhile isSpc l)
      (List.dropWhile_idempotent isSpc l)
  · exact List.rdropWhile_idempotent isSpc (List.dropWhile isSpc l)

/-- `C7` witness: the form input first name " Kevin " normalizes to
"Kevin" with last name "Trainor" untouched, and the trimming
decomposition holds on that concrete input. -/
theorem normalize_trims_whitespace_only_witness :
    cleanInstructorForm ⟨" Kevin ".toList, "Trainor".toList, []⟩ =
      ⟨"Kevin".toList, "Trainor".toList, []⟩
    ∧ ∃ pre suf,
        (∀ c ∈ pre, isSpc c = true) ∧ (∀ c ∈ suf, isSpc c = true) ∧
          " Kevin ".toList = pre ++ strip " Kevin ".toList ++ suf :=
  ⟨by decide, (normalize_trims_whitespace_only.1 " Kevin ".toList).1⟩

/-- `C8`: normalization is idempotent — trimming a trimmed value changes
nothing, both for a single field and for every whole form. -/
theorem normalize_idempotent :
    (∀ l : List Char, strip (strip l) = strip l)
    ∧ (∀ f : InstructorFormData,
        cleanInstructorForm (cleanInstructorForm f) = cleanInstructorForm f)
    ∧ (∀ f : StudentFormData,
        cleanStudentForm (cleanStudentForm f) = cleanStudentForm f)
    ∧ (∀ f : CourseFormData,
        cleanCourseForm (cleanCourseForm f) = cleanCourseForm f)
    ∧ (∀ f : SectionFormData,
        cleanSectionForm (cleanSectionForm f) = cleanSectionForm f) := by
  have hstrip : ∀ l : List Char, strip (strip l) = strip l := by
    intro l
    unfold strip
    rw [dropWhile_rdropWhile_of_dropWhile_eq isSpc (List.dropWhile isSpc l)
      (List.dropWhile_idempotent isSpc l)]
    exact List.rdropWhile_idempotent isSpc (List.dropWhile isSpc l)
  exact ⟨hstrip,
    fun f => by simp [cleanInstructorForm, hstrip],
    fun f => by simp [cleanStudentForm, hstrip],
    fun f => by simp [cleanCourseForm, hstrip],
    fun f => by simp [cleanSectionForm, hstrip]⟩

/-- `C9`: for every entity kind, the detail-by-identifier operation fails
with `NotFound` whenever the supplied identifier does not belong to any
stored record of that kind. -/
theorem detail_notFound :
    ∀ (db : DB) (pk : Nat),
      ((∀ r ∈ db.years, r.pk ≠ pk) →
        detail_entity db .year pk = .error .notFound)
      ∧ ((∀ r ∈ db.periods, r.pk ≠ pk) →
        detail_entity db .period pk = .error .notFound)
      ∧ ((∀ r ∈ db.semesters, r.pk ≠ pk) →
        detail_entity db .semester pk = .error .notFound)
      ∧ ((∀ r ∈ db.courses, r.pk ≠ pk) →
        detail_entity db .course pk = .error .notFound)
      ∧ ((∀ r ∈ db.instructors, r.pk ≠ pk) →
        detail_entity db .instructor pk = .error .notFound)
      ∧ ((∀ r ∈ db.students, r.pk ≠ pk) →
        detail_entity db .student pk = .error .notFound)
      ∧ ((∀ r ∈ db.sections, r.pk ≠ pk) →
        detail_entity db .section pk = .error .notFound)
      ∧ ((∀ r ∈ db.registrations, r.pk ≠ pk) →
        detail_entity db .registration pk = .error .notFound) := by
  intro db pk
  refine ⟨fun h => ?_, fun h => ?_, fun h => ?_, fun h => ?_, fun h => ?_,
    fun h => ?_, fun h => ?_, fun h => ?_⟩
  all_goals
    simp only [detail_entity, findRecord]
    rw [List.find?_eq_none.mpr (fun r hr => by simpa using h r hr)]
    rfl

/-- `C9` witness: identifier 999 resolves to no record of any kind in the
sample store, and every detail lookup fails with `NotFound`. -/
theorem detail_notFound_witness :
    detail_entity dbSample .year 999 = .error .notFound
    ∧ detail_entity dbSample .period 999 = .error .notFound
    ∧ detail_entity dbSample .semester 999 = .error .notFound
    ∧ detail_entity dbSample .course 999 = .error .notFound
    ∧ detail_entity dbSample .instructor 999 = .error .notFound
    ∧ detail_entity dbSample .student 999 = .error .notFound
    ∧ detail_entity dbSample .section 999 = .error .notFound
    ∧ detail_entity dbSample .registration 999 = .error .notFound :=
  ⟨(detail_notFound dbSample 999).1 (by decide),
    (detail_notFound dbSample 999).2.1 (by decide),
    (detail_notFound dbSample 999).2.2.1 (by decide),
    (detail_notFound dbSample 999).2.2.2.1 (by decide),
    (detail_notFound dbSample 999).2.2.2.2.1 (by decide),
    (detail_notFound dbSample 999).2.2.2.2.2.1 (by decide),
    (detail_notFound dbSample 999).2.2.2.2.2.2.1 (by decide),
    (detail_notFound dbSample 999).2.2.2.2.2.2.2 (by decide)⟩

/-- `C10`: at the public list interface, access failures are
distinguished by cause — an unauthenticated caller gets a 302 redirect to
login, an authenticated caller without the entity's view permission gets
403, and an authenticated caller holding that permission gets the 200
listing. -/
theorem list_view_access_statuses :
    ∀ (ctx : ActorContext) (p : String),
      (ctx.authenticated = false → list_view_status ctx p = 302)
      ∧ (ctx.authenticated = true → p ∉ ctx.perms →
          list_view_status ctx p = 403)
      ∧ (ctx.authenticated = true → p ∈ ctx.perms →
          list_view_status ctx p = 200) := by
  intro ctx p
  refine ⟨fun h => ?_, fun h hn => ?_, fun h hm => ?_⟩
  · simp [list_view_status, h]
  · simp [list_view_status, h, hn]
  · simp [list_view_status, h, hm]

/-- `C10` witness: with the "can view instructor" permission tag, an
unauthenticated caller gets 302, an authenticated caller without the
permission gets 403, and one holding it gets 200. -/
theorem list_view_access_statuses_witness :
    list_view_status ⟨false, []⟩ "courseinfo.view_instructor" = 302
    ∧ list_view_status ⟨true, []⟩ "courseinfo.view_instructor" = 403
    ∧ list_view_status ⟨true, ["courseinfo.view_instructor"]⟩
        "courseinfo.view_instructor" = 200 :=
  ⟨(list_view_access_statuses ⟨false, []⟩ "courseinfo.view_instructor").1 rfl,
    (list_view_access_statuses ⟨true, []⟩ "courseinfo.view_instructor").2.1
      rfl (by decide),
    (list_view_access_statuses ⟨true, ["courseinfo.view_instructor"]⟩
      "courseinfo.view_instructor").2.2 rfl (by decide)⟩

end CourseInfo
